import Mathlib

/-!
Verification of the record ingestion and normalization pipeline of the
Python-for-Data-Quality-Engineers repository.

Strings are modelled as lists of characters (`Str`).  The Python string
methods the pipeline relies on (`str.strip`, `str.capitalize`,
`str.split`, `str.lower`, `re.split`, `re.sub`) are embedded over the
ASCII fragment of the character classes the source exercises; a Python
exception is modelled as `Option`/`Except` failure.  Wall-clock time is a
parameter `now` measured in seconds relative to the epoch 1970-01-01
(microseconds are irrelevant to every statement proved here).
-/

namespace Pipeline

abbrev Str := List Char

/-- Python `str.isspace` / regex class on the ASCII characters the pipeline
manipulates. -/
def pyIsSpace (c : Char) : Bool :=
  c == ' ' || c == '\t' || c == '\n' || c == '\r' || c == '\x0b' || c == '\x0c'

/-- Python regex word character (ASCII fragment). -/
def isWordChar (c : Char) : Bool :=
  c.isAlphanum || c == '_'

/-- Python `str.strip()` with no arguments: drop whitespace from both ends. -/
def pyStrip (s : Str) : Str :=
  ((s.dropWhile pyIsSpace).reverse.dropWhile pyIsSpace).reverse

/-- Python `str.lower()`. -/
def pyToLower (s : Str) : Str :=
  s.map Char.toLower

/-- Python `str.capitalize()`: first character uppercased, the rest
lowercased. -/
def pyCapitalize : Str → Str
  | [] => []
  | c :: rest => c.toUpper :: rest.map Char.toLower

/-- Python `str.rstrip('.!?')`: drop trailing sentence terminators. -/
def pyRstripTerm (s : Str) : Str :=
  (s.reverse.dropWhile (fun c => c == '.' || c == '!' || c == '?')).reverse

/-- Sentence terminator class `[.!?]` of the splitting regex. -/
def isTerm (c : Char) : Bool :=
  c == '.' || c == '!' || c == '?'

/-- Worker for the sentence split: accumulates the current sentence in
reverse, one character per step.  A maximal run of whitespace immediately
preceded by `.`, `!` or `?` is a split point (the terminator stays with
its sentence), mirroring Python `re.split` with pattern lookbehind
`[.!?]` before `\s+`; `skipping` is true while inside such a run. -/
def splitSentencesAux (skipping : Bool) (acc : List Char) : List Char → List (List Char)
  | [] => [acc.reverse]
  | c :: rest =>
    if skipping && pyIsSpace c then
      splitSentencesAux true acc rest
    else if isTerm c && (match rest with | d :: _ => pyIsSpace d | [] => false) then
      (acc.reverse ++ [c]) :: splitSentencesAux true [] rest
    else
      splitSentencesAux false (c :: acc) rest

/-- Python `re.split` at whitespace runs that follow a sentence
terminator.  On the empty string this yields `[[]]`, exactly as `re.split`
yields `['']`. -/
def splitSentences (s : Str) : List Str :=
  splitSentencesAux false [] s

/-- Worker for whitespace splitting (`str.split()` with no arguments):
runs of whitespace separate words, empty words are dropped. -/
def splitWsAux (acc : List Char) : List Char → List (List Char)
  | [] => if acc.isEmpty then [] else [acc.reverse]
  | c :: rest =>
    if pyIsSpace c then
      if acc.isEmpty then splitWsAux [] rest
      else acc.reverse :: splitWsAux [] rest
    else
      splitWsAux (c :: acc) rest

/-- Python `str.split()` with no arguments. -/
def pySplitWs (s : Str) : List Str :=
  splitWsAux [] s

/-- Worker for `str.split('|')`: splits at every `|`, keeping empty
fields; the result is always nonempty. -/
def splitPipeAux (acc : List Char) : List Char → List (List Char)
  | [] => [acc.reverse]
  | c :: rest =>
    if c == '|' then acc.reverse :: splitPipeAux [] rest
    else splitPipeAux (c :: acc) rest

/-- Python `str.split('|')`. -/
def pySplitPipe (s : Str) : List Str :=
  splitPipeAux [] s

/-- Python `re.sub` with pattern word-boundary `[iI]z` word-boundary and
replacement `is`, scanning left to right.  The flag records whether the
previously emitted character is a word character (the boundary test on
the left of a candidate match). -/
def subIzAux (prevIsWord : Bool) : List Char → List Char
  | c :: 'z' :: rest =>
    if (c == 'i' || c == 'I') && !prevIsWord &&
        (match rest with | d :: _ => !isWordChar d | [] => true) then
      'i' :: 's' :: subIzAux true rest
    else
      c :: subIzAux (isWordChar c) ('z' :: rest)
  | c :: rest => c :: subIzAux (isWordChar c) rest
  | [] => []

/-- Python `re.sub(r'\b[iI]z\b', 'is', s)`. -/
def subIz (s : Str) : Str :=
  subIzAux false s

/-- Single space join (`" ".join`). -/
def joinSpace (l : List Str) : Str :=
  List.intercalate [' '] l

/-- `normalize_text` of the source: capitalize each sentence, fix the
`iz` typo, synthesize a final sentence from the last words, count the
whitespace of the original input.  `none` models the `IndexError` that
`split()[-1]` raises when a corrected sentence holds no word. -/
def normalize_text (text : Str) : Option (Str × Nat) :=
  let sentences := splitSentences (pyStrip text)
  let normalizedSentences := sentences.map pyCapitalize
  let correctedSentences := normalizedSentences.map subIz
  match correctedSentences.mapM (fun s => (pySplitWs (pyRstripTerm s)).getLast?) with
  | none => none
  | some lastWords =>
    let newSentence := pyCapitalize (joinSpace lastWords) ++ ['.']
    some (joinSpace (correctedSentences ++ [newSentence]),
          (text.filter pyIsSpace).length)

/-! ### Dates

`datetime.strptime(s, '%Y-%m-%d')`: exactly four digits of year, one or
two digits of month and day, full match, then calendar validation by the
`datetime` constructor. -/

/-- A validated calendar date. -/
structure PyDate where
  year : Nat
  month : Nat
  day : Nat
deriving DecidableEq

/-- Consume up to `k` leading digits greedily; returns the value read,
the number of digits consumed and the rest of the string. -/
def takeDigits : Nat → Nat → Nat → Str → Nat × Nat × Str
  | 0, n, cnt, rest => (n, cnt, rest)
  | _ + 1, n, cnt, [] => (n, cnt, [])
  | k + 1, n, cnt, c :: rest =>
    if c.isDigit then takeDigits k (10 * n + (c.toNat - 48)) (cnt + 1) rest
    else (n, cnt, c :: rest)

/-- Gregorian leap year. -/
def isLeap (y : Nat) : Bool :=
  y % 4 == 0 && (y % 100 != 0 || y % 400 == 0)

/-- Length of a month. -/
def daysInMonth (y m : Nat) : Nat :=
  if m == 2 then (if isLeap y then 29 else 28)
  else if m == 4 || m == 6 || m == 9 || m == 11 then 30
  else 31

/-- `datetime.strptime(s, '%Y-%m-%d')`: `none` models the `ValueError`
raised on a string that is not a valid `YYYY-MM-DD` calendar date. -/
def parseDate (str : Str) : Option PyDate :=
  let (y, cy, s1) := takeDigits 4 0 0 str
  if cy ≠ 4 then none else
  match s1 with
  | '-' :: s2 =>
    let (m, cm, s3) := takeDigits 2 0 0 s2
    if cm = 0 then none else
    match s3 with
    | '-' :: s4 =>
      let (d, cd, s5) := takeDigits 2 0 0 s4
      if cd = 0 then none else
      if s5 = [] ∧ 1 ≤ y ∧ 1 ≤ m ∧ m ≤ 12 ∧ 1 ≤ d ∧ d ≤ daysInMonth y m then
        some ⟨y, m, d⟩
      else none
    | _ => none
  | _ => none

/-- Days since 1970-01-01 of a calendar date (civil-from-days inverse,
era arithmetic). -/
def toEpochDays (dt : PyDate) : Int :=
  let y := if dt.month ≤ 2 then dt.year - 1 else dt.year
  let era := y / 400
  let yoe := y % 400
  let mp := if dt.month ≥ 3 then dt.month - 3 else dt.month + 9
  let doy := (153 * mp + 2) / 5 + dt.day - 1
  let doe := yoe * 365 + yoe / 4 - yoe / 100 + doy
  (era * 146097 + doe : Int) - 719468

/-- The midnight instant of a date, in seconds since the epoch
(`strptime` yields midnight of the parsed day). -/
def dateSec (dt : PyDate) : Int :=
  toEpochDays dt * 86400

/-- `(expiration_date - datetime.now()).days`: a Python `timedelta`
normalizes to whole days rounded toward negative infinity (floor), which
is `Int.fdiv`. -/
def daysDelta (now : Int) (dt : PyDate) : Int :=
  Int.fdiv (dateSec dt - now) 86400

/-! ### Records and their construction -/

/-- The Python exceptions the pipeline can raise per item. -/
inductive PyErr where
  | indexError
  | valueError
  | typeError
  | attributeError
deriving DecidableEq

/-- A constructed record.  `text` (and the pass-through string fields)
are `Option Str` because Python `dict.get` hands the constructors `None`
for a missing JSON key and the constructors store it untouched. -/
inductive RecData where
  | news (text city : Option Str)
  | privateAd (text : Option Str) (expDate : PyDate) (daysLeft : Int)
  | event (text location : Option Str) (eventDate : PyDate) (daysUntil : Int)
deriving DecidableEq

/-- The text field of a constructed record. -/
def recText : RecData → Option Str
  | .news t _ => t
  | .privateAd t _ _ => t
  | .event t _ _ _ => t

/-- `PrivateAd.__init__`: parse the expiration date with `strptime`
(`TypeError` when handed `None`, `ValueError` on a bad string) and derive
`days_left` once from the current time. -/
def mkPrivateAd (now : Int) (text expiration : Option Str) : Except PyErr RecData :=
  match expiration with
  | none => .error .typeError
  | some s =>
    match parseDate s with
    | none => .error .valueError
    | some d => .ok (.privateAd text d (daysDelta now d))

/-- `Event.__init__`: as `PrivateAd.__init__` with `days_until_event`. -/
def mkEvent (now : Int) (text location eventDate : Option Str) : Except PyErr RecData :=
  match eventDate with
  | none => .error .typeError
  | some s =>
    match parseDate s with
    | none => .error .valueError
    | some d => .ok (.event text location d (daysDelta now d))

/-- The raw field values an adapter hands to a record constructor. -/
inductive RawFields where
  | news (text city : Option Str)
  | privateAd (text expiration : Option Str)
  | event (text location eventDate : Option Str)
deriving DecidableEq

/-- Construct the record of a variant from raw field values (`News` has
no further validation; the dated variants parse their date). -/
def construct (now : Int) : RawFields → Except PyErr RecData
  | .news t c => .ok (.news t c)
  | .privateAd t e => mkPrivateAd now t e
  | .event t l d => mkEvent now t l d

/-! ### Ingestion adapters -/

/-- One element of the parsed JSON array: each field is
`record_data.get(key)`, `none` for a missing key (the loader works on the
already-parsed document; document-level decode errors are out of scope
of the claims). -/
structure JsonObj where
  type : Option Str
  text : Option Str
  city : Option Str
  expiration_date : Option Str
  location : Option Str
  event_date : Option Str
deriving DecidableEq

/-- A JSON object with every field absent. -/
def JsonObj.empty : JsonObj :=
  ⟨none, none, none, none, none, none⟩

/-- Field extraction of `load_from_json`: the discriminator selects the
variant and the raw values are handed over verbatim (no stripping, no
validation); an unknown or missing `type` is skipped. -/
def jsonExtract (o : JsonObj) : Option RawFields :=
  if o.type = some ("news").data then some (.news o.text o.city)
  else if o.type = some ("private_ad").data then some (.privateAd o.text o.expiration_date)
  else if o.type = some ("event").data then some (.event o.text o.location o.event_date)
  else none

/-- One iteration of the `load_from_json` loop: `ok none` is the skip of
an unknown type, `error` an uncaught construction exception. -/
def jsonStep (now : Int) (o : JsonObj) : Except PyErr (Option RecData) :=
  match jsonExtract o with
  | none => .ok none
  | some rf => (construct now rf).map some

/-- One `<record>` element of the XML document.  The outer `Option` is
element presence (`record.find(tag)`), the inner one the element's text
content (`elem.text`, `None` for an empty element). -/
structure XmlRecordElem where
  type : Option Str
  textEl : Option (Option Str)
  cityEl : Option (Option Str)
  expirationEl : Option (Option Str)
  locationEl : Option (Option Str)
  eventDateEl : Option (Option Str)
deriving DecidableEq

/-- `record.find(tag).text.strip()`: an `AttributeError` when the element
is missing (`None.text`) or empty (`None.strip()`), otherwise the
stripped content. -/
def xmlFieldText : Option (Option Str) → Except PyErr Str
  | some (some s) => .ok (pyStrip s)
  | _ => .error .attributeError

/-- Field extraction of `load_from_xml`: the text element is read (and
stripped) before the variant dispatch, then the variant-specific
elements, each stripped; an unknown `type` attribute is skipped. -/
def xmlExtract (e : XmlRecordElem) : Except PyErr (Option RawFields) := do
  let t ← xmlFieldText e.textEl
  if e.type = some ("news").data then
    let c ← xmlFieldText e.cityEl
    return some (.news (some t) (some c))
  else if e.type = some ("private_ad").data then
    let x ← xmlFieldText e.expirationEl
    return some (.privateAd (some t) (some x))
  else if e.type = some ("event").data then
    let l ← xmlFieldText e.locationEl
    let d ← xmlFieldText e.eventDateEl
    return some (.event (some t) (some l) (some d))
  else
    return none

/-- One iteration of the `load_from_xml` loop. -/
def xmlStep (now : Int) (e : XmlRecordElem) : Except PyErr (Option RecData) :=
  match xmlExtract e with
  | .error err => .error err
  | .ok none => .ok none
  | .ok (some rf) => (construct now rf).map some

/-- One iteration of `FileRecordProcessor.process_file` over a line:
split on `|`, take the variant tag and the text (`parts[1]` raises an
`IndexError` when the line has fewer than two fields), normalize the
text (which itself may raise), then dispatch on tag and field count,
skipping on a mismatch. -/
def processLine (now : Int) (line : Str) : Except PyErr (Option RecData) :=
  let parts := pySplitPipe (pyStrip line)
  let recordType := pyStrip (parts.headD [])
  match parts.get? 1 with
  | none => .error .indexError
  | some p1 =>
    match normalize_text (pyStrip p1) with
    | none => .error .indexError
    | some (ntext, _) =>
      if recordType = ("News").data ∧ parts.length = 3 then
        .ok (some (.news (some ntext) (some (pyStrip (parts.getD 2 [])))))
      else if recordType = ("PrivateAd").data ∧ parts.length = 3 then
        (mkPrivateAd now (some ntext) (some (pyStrip (parts.getD 2 [])))).map some
      else if recordType = ("Event").data ∧ parts.length = 4 then
        (mkEvent now (some ntext) (some (pyStrip (parts.getD 2 [])))
          (some (pyStrip (parts.getD 3 [])))).map some
      else
        .ok none

/-- Outcome of one adapter call: the records persisted (in order), the
uncaught exception if one aborted the loop, whether the source file was
deleted, and whether the missing-source message was printed. -/
structure AdapterOut where
  processed : List RecData
  err : Option PyErr
  deleted : Bool
  missingReported : Bool
deriving DecidableEq

/-- The loop shared by the three file-based adapters: each item either
yields a record (persisted immediately), is skipped, or raises — and an
uncaught exception aborts the rest of the batch. -/
def runLoop (step : α → Except PyErr (Option RecData)) :
    List α → List RecData → List RecData × Option PyErr
  | [], acc => (acc, none)
  | x :: rest, acc =>
    match step x with
    | .error e => (acc, some e)
    | .ok none => runLoop step rest acc
    | .ok (some r) => runLoop step rest (acc ++ [r])

/-- The file-based adapter skeleton: a missing source is reported and the
call returns as a no-op; otherwise the loop runs and the source is
deleted exactly when the loop finishes without raising. -/
def runAdapter (step : α → Except PyErr (Option RecData))
    (file : Option (List α)) : AdapterOut :=
  match file with
  | none => ⟨[], none, false, true⟩
  | some items =>
    match runLoop step items [] with
    | (ps, none) => ⟨ps, none, true, false⟩
    | (ps, some e) => ⟨ps, some e, false, false⟩

/-- `NewsFeed.load_from_json`: `file` is `none` when the source path does
not exist, otherwise the parsed array. -/
def load_from_json (now : Int) (file : Option (List JsonObj)) : AdapterOut :=
  runAdapter (jsonStep now) file

/-- `XMLLoader.load_from_xml` over the `<record>` elements. -/
def load_from_xml (now : Int) (file : Option (List XmlRecordElem)) : AdapterOut :=
  runAdapter (xmlStep now) file

/-- `FileRecordProcessor.process_file` over the source lines. -/
def process_file (now : Int) (file : Option (List Str)) : AdapterOut :=
  runAdapter (processLine now) file

/-! ### Table sink (`DatabaseManager`) -/

/-- One row of a variant table: the auto-assigned identifier, the `text`
column (carrying the uniqueness constraint) and the remaining columns in
declaration order. -/
structure Row where
  id : Nat
  text : Str
  rest : List Str
deriving DecidableEq

/-- One variant table: its rows in insertion order and the
auto-increment sequence counter. -/
structure Table where
  rows : List Row
  seq : Nat
deriving DecidableEq

/-- A table with no rows, as `CREATE TABLE` leaves it. -/
def Table.empty : Table :=
  ⟨[], 0⟩

/-- `DatabaseManager.insert_record`: `INSERT OR IGNORE` into a table
whose `text` column is `UNIQUE` — a row whose text already occurs is
silently dropped, otherwise the row is appended with the next
identifier. -/
def insert_record (t : Table) (text : Str) (rest : List Str) : Table :=
  if t.rows.any (fun r => r.text = text) then t
  else ⟨t.rows ++ [⟨t.seq + 1, text, rest⟩], t.seq + 1⟩

/-- The database: the three variant tables, each `none` until created. -/
structure DB where
  news : Option Table
  privateAd : Option Table
  eventTable : Option Table
deriving DecidableEq

/-- `DatabaseManager.create_tables` (run by the constructor):
`CREATE TABLE IF NOT EXISTS` for each of the three tables — an existing
table is left untouched, rows included, a missing one is created
empty. -/
def create_tables (db : DB) : DB :=
  ⟨some (db.news.getD Table.empty),
   some (db.privateAd.getD Table.empty),
   some (db.eventTable.getD Table.empty)⟩

/-! ### Analytics accumulator (`update_word_count` / `update_letter_count`) -/

/-- Insert-or-bump on an insertion-ordered association list, as a Python
dict tallies. -/
def bump (m : List (Str × Nat)) (w : Str) : List (Str × Nat) :=
  if m.any (fun p => p.1 = w) then
    m.map (fun p => if p.1 = w then (p.1, p.2 + 1) else p)
  else m ++ [(w, 1)]

/-- The word-frequency mapping of one text: lowercase, split on
whitespace, tally. -/
def word_count (t : Str) : List (Str × Nat) :=
  (pySplitWs (pyToLower t)).foldl bump []

/-- The letter-statistics row of one text: the text, its letter count,
its uppercase count and the uppercase percentage (an exact rational
standing for the source's float; `0` when there are no letters). -/
def letter_row (t : Str) : Str × Nat × Nat × ℚ :=
  let letters := t.filter Char.isAlpha
  let upper := (letters.filter Char.isUpper).length
  (t, letters.length, upper,
   if letters.length = 0 then 0 else (upper * 100 : ℚ) / letters.length)

/-- The two CSV artifacts. -/
structure Artifacts where
  wordFile : List (Str × Nat)
  letterFile : Str × Nat × Nat × ℚ
deriving DecidableEq

/-- `update_word_count`: the word-count artifact is rewritten (mode
`'w'`) with the mapping of just this text. -/
def update_word_count (a : Artifacts) (t : Str) : Artifacts :=
  ⟨word_count t, a.letterFile⟩

/-- `update_letter_count`: the letter-count artifact is rewritten with
the row of just this text. -/
def update_letter_count (a : Artifacts) (t : Str) : Artifacts :=
  ⟨a.wordFile, letter_row t⟩

/-- The per-record analytics update: word count then letter count, as
every call site orders them. -/
def update_analytics (a : Artifacts) (t : Str) : Artifacts :=
  update_letter_count (update_word_count a t) t

/-- A sequence of analytics updates. -/
def run_updates (a : Artifacts) (ts : List Str) : Artifacts :=
  ts.foldl update_analytics a

/-! ### General lemmas -/

/-- A file-based adapter call that ends without an uncaught exception
deletes its source. -/
theorem runAdapter_deleted (step : α → Except PyErr (Option RecData)) (items : List α)
    (h : (runAdapter step (some items)).err = none) :
    (runAdapter step (some items)).deleted = true := by
  rcases hr : runLoop step items [] with ⟨ps, e⟩
  cases e
  · simp [runAdapter, hr]
  · simp [runAdapter, hr] at h

/-! ### Claims -/

/-- C1 (counterexample): `normalize` is not total — on the empty string
it raises an `IndexError` (modelled by `none`) rather than returning the
degenerate synthesized sentence `"."`. -/
theorem c1_counterexample : normalize_text [] = none := by rfl

/-- C1 (amended): on every input that is empty after trimming,
`normalize` raises an `IndexError` — the sentence split of the empty
string yields one empty sentence, whose last-word extraction indexes an
empty list — instead of returning the synthesized sentence `"."`. -/
theorem c1_empty_trim_raises (text : Str) (h : pyStrip text = []) :
    normalize_text text = none := by
  unfold normalize_text
  rw [h]
  rfl

/-- C1 witness: a concrete whitespace-only input. -/
theorem c1_witness :
    pyStrip ([' ', '\t']) = [] ∧ normalize_text ([' ', '\t']) = none :=
  ⟨rfl, c1_empty_trim_raises ([' ', '\t']) rfl⟩

/-- C3 (counterexample): at noon of 2020-01-01, constructing a
`PrivateAd` expiring 2020-01-01 yields `days_left = -1` (floor of −half a
day), while truncation toward zero of the same difference is `0` — the
claim's rounding mode contradicts the code. -/
theorem c3_counterexample :
    mkPrivateAd (dateSec ⟨2020, 1, 1⟩ + 43200) (some ("x").data) (some ("2020-01-01").data) =
      .ok (.privateAd (some ("x").data) ⟨2020, 1, 1⟩ (-1)) ∧
    Int.tdiv (dateSec ⟨2020, 1, 1⟩ - (dateSec ⟨2020, 1, 1⟩ + 43200)) 86400 = 0 := by
  exact ⟨rfl, rfl⟩

/-- C3 (amended): for every valid `YYYY-MM-DD` expiration date,
`PrivateAd` construction succeeds (no exception) and derives `days_left`
once as the floor — rounded toward negative infinity, not truncated
toward zero — of `(expiration − now)` in whole days; when the expiration
instant is already past, `days_left` is negative. -/
theorem c3_days_left_floor (now : Int) (text : Option Str) (s : Str) (d : PyDate)
    (h : parseDate s = some d) :
    mkPrivateAd now text (some s) =
      .ok (.privateAd text d (Int.fdiv (dateSec d - now) 86400)) ∧
    (dateSec d < now → daysDelta now d < 0) := by
  constructor
  · simp [mkPrivateAd, h, daysDelta]
  · intro hlt
    unfold daysDelta
    rw [Int.fdiv_eq_ediv _ (by norm_num)]
    exact Int.ediv_neg' (by omega) (by norm_num)

/-- C3 witness: a date already past by 100 seconds. -/
theorem c3_witness :
    mkPrivateAd (dateSec ⟨2021, 2, 3⟩ + 100) (some ("y").data) (some ("2021-02-03").data) =
      .ok (.privateAd (some ("y").data) ⟨2021, 2, 3⟩
        (Int.fdiv (dateSec ⟨2021, 2, 3⟩ - (dateSec ⟨2021, 2, 3⟩ + 100)) 86400)) ∧
    daysDelta (dateSec ⟨2021, 2, 3⟩ + 100) ⟨2021, 2, 3⟩ < 0 :=
  ⟨(c3_days_left_floor (dateSec ⟨2021, 2, 3⟩ + 100) (some ("y").data)
      (("2021-02-03").data) ⟨2021, 2, 3⟩ (by rfl)).1,
   (c3_days_left_floor (dateSec ⟨2021, 2, 3⟩ + 100) (some ("y").data)
      (("2021-02-03").data) ⟨2021, 2, 3⟩ (by rfl)).2 (by omega)⟩

/-- C5 (code bug): a line with fewer than two `|`-separated fields is not
skipped — `parts[1]` is read before any field-count check, so the line
raises an `IndexError` that aborts the whole adapter call (later lines
unprocessed, source not deleted), although the loop's own
invalid-format branch shows skip-and-continue is the intended handling. -/
theorem c5_short_line_aborts_batch :
    process_file 0 (some [("garbage").data, ("News|hello world|Paris").data]) =
      ⟨[], some .indexError, false, false⟩ ∧
    processLine 0 (("garbage").data) = .error .indexError := by
  exact ⟨rfl, rfl⟩

/-- C8: the analytics artifacts are rebuilt from scratch on every update
and overwritten, so any sequence of updates leaves exactly the artifacts
of the last text alone, whatever state either run started from. -/
theorem c8_overwrite_semantics (a b : Artifacts) (ts : List Str) (t : Str) :
    run_updates a (ts ++ [t]) = run_updates b [t] := by
  unfold run_updates
  rw [List.foldl_append]
  rfl

/-- C9: re-running table creation (the second `DatabaseManager`
construction) is idempotent — on any database whose three tables already
exist, `CREATE TABLE IF NOT EXISTS` leaves the database, rows included,
unchanged. -/
theorem c9_create_tables_idempotent (db : DB) :
    create_tables (create_tables db) = create_tables db ∧
    (db.news.isSome ∧ db.privateAd.isSome ∧ db.eventTable.isSome →
      create_tables db = db) := by
  constructor
  · rfl
  · rintro ⟨h1, h2, h3⟩
    rcases db with ⟨n, p, e⟩
    rcases n with _ | n <;> rcases p with _ | p <;> rcases e with _ | e <;>
      simp_all [create_tables]

/-- C9 witness: a database holding a row survives a second creation. -/
theorem c9_witness :
    create_tables (create_tables (⟨some Table.empty,
        some ⟨[⟨1, ("ad text").data, []⟩], 1⟩, some Table.empty⟩ : DB)) =
      create_tables ⟨some Table.empty, some ⟨[⟨1, ("ad text").data, []⟩], 1⟩, some Table.empty⟩ ∧
    create_tables ⟨some Table.empty, some ⟨[⟨1, ("ad text").data, []⟩], 1⟩, some Table.empty⟩ =
      ⟨some Table.empty, some ⟨[⟨1, ("ad text").data, []⟩], 1⟩, some Table.empty⟩ :=
  ⟨(c9_create_tables_idempotent _).1,
   (c9_create_tables_idempotent _).2 ⟨rfl, rfl, rfl⟩⟩

/-- C2 (counterexample): a JSON batch of a good news record, a private ad
with an unparseable expiration date and another good news record — the
date error is not caught by the adapter loop: only the first record is
processed, the loop aborts with the uncaught `ValueError` and the source
file is not deleted, instead of skipping the bad record and continuing. -/
theorem c2_counterexample :
    load_from_json 0 (some
      [⟨some ("news").data, some ("n1").data, some ("c1").data, none, none, none⟩,
       ⟨some ("private_ad").data, some ("t").data, none, some ("2020-13-45").data, none, none⟩,
       ⟨some ("news").data, some ("n2").data, some ("c2").data, none, none, none⟩]) =
    ⟨[.news (some ("n1").data) (some ("c1").data)], some .valueError, false, false⟩ := by
  rfl

/-- C2 (amended): an `expiration_date`/`event_date` string that is not a
valid calendar date raises a date-parse error that the adapter loop does
NOT catch: it is fatal to the whole batch — records before the bad one
are processed, the bad one and every later one are not, and the source
file is not deleted. -/
theorem c2_uncaught_date_error (now : Int) (g o : JsonObj) (rest : List JsonObj) (s : Str)
    (hg : g.type = some ("news").data) (hbad : parseDate s = none) :
    (o.type = some ("private_ad").data → o.expiration_date = some s →
      load_from_json now (some (g :: o :: rest)) =
        ⟨[.news g.text g.city], some .valueError, false, false⟩) ∧
    (o.type = some ("event").data → o.event_date = some s →
      load_from_json now (some (g :: o :: rest)) =
        ⟨[.news g.text g.city], some .valueError, false, false⟩) := by
  constructor <;> intro ht hd <;>
    simp [load_from_json, runAdapter, runLoop, jsonStep, jsonExtract, construct,
      mkPrivateAd, mkEvent, Except.map, hg, ht, hd, hbad]

/-- C2 witness: one good news record followed by a private ad whose
expiration date is garbage. -/
theorem c2_witness :
    load_from_json 7 (some
      [⟨some ("news").data, some ("fine").data, some ("Lyon").data, none, none, none⟩,
       ⟨some ("private_ad").data, some ("sale").data, none, some ("oops").data, none, none⟩]) =
      ⟨[.news (some ("fine").data) (some ("Lyon").data)], some .valueError, false, false⟩ :=
  (c2_uncaught_date_error 7
      ⟨some ("news").data, some ("fine").data, some ("Lyon").data, none, none, none⟩
      ⟨some ("private_ad").data, some ("sale").data, none, some ("oops").data, none, none⟩
      [] (("oops").data) rfl rfl).1 rfl rfl

/-- C4: on a table whose `text` column respects the uniqueness
constraint, inserting a record leaves exactly one row carrying that text,
every further insert of the same text is silently dropped (no error is
representable: `insert_record` is total), and rows carrying other texts
are untouched. -/
theorem c4_insert_dedup (t : Table) (text : Str) (r1 r2 : List Str)
    (h : t.rows.countP (fun r => r.text = text) ≤ 1) :
    insert_record (insert_record t text r1) text r2 = insert_record t text r1 ∧
    ((insert_record t text r1).rows.countP (fun r => r.text = text)) = 1 ∧
    (insert_record t text r1).rows.filter (fun r => ¬ r.text = text) =
      t.rows.filter (fun r => ¬ r.text = text) := by
  by_cases hmem : t.rows.any (fun r => decide (r.text = text)) = true
  · have h1 : insert_record t text r1 = t := by
      simp [insert_record, hmem]
    have hpos : 0 < t.rows.countP (fun r => decide (r.text = text)) := by
      rw [List.countP_pos_iff]
      simpa using hmem
    refine ⟨by rw [h1]; simp [insert_record, hmem], ?_, by rw [h1]⟩
    rw [h1]
    omega
  · have hzero : t.rows.countP (fun r => decide (r.text = text)) = 0 := by
      rw [List.countP_eq_zero]
      intro a ha
      by_contra hc
      exact hmem (List.any_eq_true.mpr ⟨a, ha, by simpa using hc⟩)
    have h1 : insert_record t text r1 =
        ⟨t.rows ++ [⟨t.seq + 1, text, r1⟩], t.seq + 1⟩ := by
      simp [insert_record, hmem]
    refine ⟨?_, ?_, ?_⟩
    · rw [h1]
      simp [insert_record, List.any_append]
    · rw [h1]
      simp [List.countP_append, hzero]
    · rw [h1]
      simp [List.filter_append]

/-- C4 witness: two inserts of the same text into the empty table. -/
theorem c4_witness :
    insert_record (insert_record Table.empty (("dup").data) [(("a").data)])
        (("dup").data) [(("b").data)] =
      insert_record Table.empty (("dup").data) [(("a").data)] ∧
    ((insert_record Table.empty (("dup").data) [(("a").data)]).rows.countP
        (fun r => r.text = ("dup").data)) = 1 ∧
    (insert_record Table.empty (("dup").data) [(("a").data)]).rows.filter
        (fun r => ¬ r.text = ("dup").data) =
      Table.empty.rows.filter (fun r => ¬ r.text = ("dup").data) :=
  c4_insert_dedup Table.empty (("dup").data) [(("a").data)] [(("b").data)] (by decide)

/-- C6 (counterexample): the JSON adapter constructs and persists a news
record whose `text` is the empty string — the produced batch violates the
claimed invariant that every produced record has nonempty trimmed
text. -/
theorem c6_counterexample :
    ¬ (∀ r ∈ (load_from_json 0 (some
        [⟨some ("news").data, some [], some ("c").data, none, none, none⟩])).processed,
      pyStrip ((recText r).getD []) ≠ []) := by
  decide

/-- C6 (amended): the adapters perform no emptiness validation on the
text field — the JSON adapter constructs and persists a record whose
text is the empty string, and likewise one whose text key is missing
(`None`), rather than rejecting them. -/
theorem c6_no_text_validation (now : Int) (city : Option Str) :
    load_from_json now (some [⟨some ("news").data, some [], city, none, none, none⟩]) =
      ⟨[.news (some []) city], none, true, false⟩ ∧
    load_from_json now (some [⟨some ("news").data, none, city, none, none, none⟩]) =
      ⟨[.news none city], none, true, false⟩ := by
  exact ⟨rfl, rfl⟩

/-- C7: for the JSON, XML and delimited-line adapters alike — a missing
source file is reported and the call is a no-op (nothing processed, no
exception, no deletion); and whenever the read loop finishes without an
uncaught exception (individual records skipped or not), the source file
is deleted. -/
theorem c7_delete_semantics (now : Int) :
    (load_from_json now none = ⟨[], none, false, true⟩ ∧
     load_from_xml now none = ⟨[], none, false, true⟩ ∧
     process_file now none = ⟨[], none, false, true⟩) ∧
    (∀ items : List JsonObj, (load_from_json now (some items)).err = none →
      (load_from_json now (some items)).deleted = true) ∧
    (∀ items : List XmlRecordElem, (load_from_xml now (some items)).err = none →
      (load_from_xml now (some items)).deleted = true) ∧
    (∀ lines : List Str, (process_file now (some lines)).err = none →
      (process_file now (some lines)).deleted = true) := by
  refine ⟨⟨rfl, rfl, rfl⟩, fun items h => ?_, fun items h => ?_, fun lines h => ?_⟩ <;>
    exact runAdapter_deleted _ _ h

/-- C7 witness: the no-op on a missing source, and deletion after a pass
whose only record is skipped (unknown discriminator). -/
theorem c7_witness :
    load_from_json 3 none = ⟨[], none, false, true⟩ ∧
    (load_from_json 3 (some [⟨some ("mystery").data, some ("x").data, none, none, none, none⟩])).deleted = true ∧
    (load_from_xml 3 (some ([] : List XmlRecordElem))).deleted = true ∧
    (process_file 3 (some [("Foo|bar").data])).deleted = true :=
  ⟨(c7_delete_semantics 3).1.1,
   (c7_delete_semantics 3).2.1 [⟨some ("mystery").data, some ("x").data, none, none, none, none⟩] rfl,
   (c7_delete_semantics 3).2.2.1 [] rfl,
   (c7_delete_semantics 3).2.2.2 [("Foo|bar").data] rfl⟩

/-- C10: the XML adapter strips leading and trailing whitespace from the
text element and from every variant-specific field before handing them to
the record constructors, while the JSON adapter hands the corresponding
values over verbatim, with no stripping or normalization. -/
theorem c10_strip_semantics :
    (∀ (e : XmlRecordElem) (t c : Str), e.type = some ("news").data →
      e.textEl = some (some t) → e.cityEl = some (some c) →
      xmlExtract e = .ok (some (.news (some (pyStrip t)) (some (pyStrip c))))) ∧
    (∀ (e : XmlRecordElem) (t x : Str), e.type = some ("private_ad").data →
      e.textEl = some (some t) → e.expirationEl = some (some x) →
      xmlExtract e = .ok (some (.privateAd (some (pyStrip t)) (some (pyStrip x))))) ∧
    (∀ (e : XmlRecordElem) (t l d : Str), e.type = some ("event").data →
      e.textEl = some (some t) → e.locationEl = some (some l) →
      e.eventDateEl = some (some d) →
      xmlExtract e = .ok (some (.event (some (pyStrip t)) (some (pyStrip l))
        (some (pyStrip d))))) ∧
    (∀ o : JsonObj, o.type = some ("news").data →
      jsonExtract o = some (.news o.text o.city)) ∧
    (∀ o : JsonObj, o.type = some ("private_ad").data →
      jsonExtract o = some (.privateAd o.text o.expiration_date)) ∧
    (∀ o : JsonObj, o.type = some ("event").data →
      jsonExtract o = some (.event o.text o.location o.event_date)) := by
  refine ⟨?_, ?_, ?_, ?_, ?_, ?_⟩ <;> intro e <;>
    first
    | (intro t c h1 h2 h3;
        simp [xmlExtract, xmlFieldText, Bind.bind, Except.bind, Pure.pure,
          Except.pure, h1, h2, h3])
    | (intro t l d h1 h2 h3 h4;
        simp [xmlExtract, xmlFieldText, Bind.bind, Except.bind, Pure.pure,
          Except.pure, h1, h2, h3, h4])
    | (intro h1; simp [jsonExtract, h1])

/-- C10 witness: the same raw field values through both adapters — the
XML path strips them, the JSON path does not. -/
theorem c10_witness :
    xmlExtract ⟨some ("news").data, some (some ((" a ").data)),
        some (some ((" B ").data)), none, none, none⟩ =
      .ok (some (.news (some (pyStrip ((" a ").data))) (some (pyStrip ((" B ").data))))) ∧
    jsonExtract ⟨some ("news").data, some ((" a ").data), some ((" B ").data),
        none, none, none⟩ =
      some (.news (some ((" a ").data)) (some ((" B ").data))) :=
  ⟨c10_strip_semantics.1 _ _ _ rfl rfl rfl,
   c10_strip_semantics.2.2.2.1 _ rfl⟩

end Pipeline
